import Mathlib

/-!
Shallow embedding of the AuditFlow read-only query layer
(`src/database/queries.py`) and the response schemas it feeds
(`src/database/schema.py`, `src/main.py`).

Modelling choices:
* Python floats become exact rationals (ℚ); Python `round(x, 2)` becomes
  round-half-to-even at two decimal places on ℚ.
* A trial-balance table is a list of `LedgerRow`; the store is the pair of
  the two period tables.
* A balance snapshot (the dict `{account_name: balance}` built inside
  `get_variance_analysis`) is an association list queried with first-match
  lookup, matching map semantics for unique keys.
* Python exceptions become `Except` results.
-/

/-- A row of either trial-balance table (`models.py`). -/
structure LedgerRow where
  gl_account : String
  account_name : String
  debit : ℚ
  credit : ℚ
  balance : ℚ
deriving DecidableEq

/-- The data store: the two period tables. -/
structure Database where
  current_year : List LedgerRow
  previous_year : List LedgerRow
deriving DecidableEq

/-- The `ValueError` cases raised by the query layer. -/
inductive QueryError where
  | invalidColumn (column : String)
  | unknownTable (table : String)
deriving DecidableEq

/-- Model of `get_model_by_name`: resolve a table name to its table, raising
`ValueError("Unknown table: ...")` otherwise. -/
def get_model_by_name (db : Database) (table_name : String) :
    Except QueryError (List LedgerRow) :=
  if table_name = "current_year" then .ok db.current_year
  else if table_name = "previous_year" then .ok db.previous_year
  else .error (.unknownTable table_name)

/-- Model of `getattr(model_class, column)`: project the summed column of a row.
Only ever applied after the column has been validated. -/
def columnValue (column : String) (r : LedgerRow) : ℚ :=
  if column = "debit" then r.debit
  else if column = "credit" then r.credit
  else r.balance

/-- Model of `get_total`: validate the column, resolve the table, and sum the column
over all rows (an empty aggregate yields 0.0). -/
def get_total (db : Database) (table_name column : String) :
    Except QueryError ℚ :=
  if column ∈ (["debit", "credit", "balance"] : List String) then
    (get_model_by_name db table_name).map
      (fun rows => (rows.map (columnValue column)).sum)
  else .error (.invalidColumn column)

/-- The dict returned by `check_total_match`. -/
structure ReconciliationResult where
  debit_total : ℚ
  credit_total : ℚ
  is_balanced : Bool
deriving DecidableEq

/-- Model of `check_total_match`: sum debit and credit over one table and compare
them with absolute tolerance 0.01. -/
def check_total_match (db : Database) (table_name : String) :
    Except QueryError ReconciliationResult :=
  (get_model_by_name db table_name).map (fun rows =>
    let debit_total := (rows.map (fun r => r.debit)).sum
    let credit_total := (rows.map (fun r => r.credit)).sum
    { debit_total := debit_total
      credit_total := credit_total
      is_balanced := decide (|debit_total - credit_total| < 0.01) })

/-- Model of `TotalResponse` (`schema.py`): the response of the `total` tool; pydantic
enforces `total ≥ 0` (`Field(ge=0)`) when the object is constructed. -/
structure TotalResponse where
  table_name : String
  column : String
  total : ℚ
deriving DecidableEq

/-- Failures visible at the tool layer: a query-layer `ValueError` or a
pydantic validation error on response construction. -/
inductive ToolError where
  | query (e : QueryError)
  | validation
deriving DecidableEq

/-- Pydantic construction of a `TotalResponse`: the `ge=0` constraint on
`total` rejects a negative value. -/
def mkTotalResponse (table_name column : String) (total : ℚ) :
    Except ToolError TotalResponse :=
  if 0 ≤ total then
    .ok { table_name := table_name, column := column, total := total }
  else .error .validation

/-- Model of `totalTool` (`main.py`): run `get_total` and wrap the value in a
validated `TotalResponse`. -/
def totalTool (db : Database) (table_name column : String) :
    Except ToolError TotalResponse :=
  match get_total db table_name column with
  | .error e => .error (.query e)
  | .ok v => mkTotalResponse table_name column v

/-- Python `round` to the nearest integer, ties to even. -/
def pyRoundInt (x : ℚ) : ℤ :=
  if x - ⌊x⌋ < 1 / 2 then ⌊x⌋
  else if 1 / 2 < x - ⌊x⌋ then ⌊x⌋ + 1
  else if ⌊x⌋ % 2 = 0 then ⌊x⌋ else ⌊x⌋ + 1

/-- Python `round(x, 2)`. -/
def round2 (x : ℚ) : ℚ := (pyRoundInt (x * 100) : ℚ) / 100

/-- A balance snapshot: the dict `{account_name: balance}` read from one
period table. -/
abbrev Snapshot := List (String × ℚ)

/-- Model of `snapshot.get(name, 0.0)`. -/
def getBalance (s : Snapshot) (name : String) : ℚ :=
  ((s.lookup name).getD 0)

/-- The per-account variance percentage computed by
`get_variance_analysis`, with its zero-denominator policy. -/
def variancePercentage (current_balance previous_balance : ℚ) : ℚ :=
  if previous_balance ≠ 0 then
    round2 (|(current_balance - previous_balance) / previous_balance| * 100)
  else if current_balance ≠ 0 then 100
  else 0

/-- One element of `variance_results`. -/
structure VarianceRecord where
  account_name : String
  current_balance : ℚ
  previous_balance : ℚ
  variance_amount : ℚ
  variance_percentage : ℚ
  exceeds_threshold : Bool
deriving DecidableEq

/-- The dict returned by `get_variance_analysis`. -/
structure VarianceReport where
  total_accounts : ℕ
  variance_count : ℕ
  threshold_used : ℚ
  variances_exceeding_threshold : List VarianceRecord
deriving DecidableEq

/-- Model of `all_account_names = set(current.keys()) | set(previous.keys())`: one
concrete linearization of the name union (each name exactly once). -/
def unionNames (current previous : Snapshot) : List String :=
  (current.map Prod.fst ++ previous.map Prod.fst).dedup

/-- The loop body of `get_variance_analysis`: the record appended for one
account name, or `none` when `variance_percentage == 0.0`. -/
def varianceRecordFor (threshold : ℚ) (current previous : Snapshot)
    (name : String) : Option VarianceRecord :=
  let current_balance := getBalance current name
  let previous_balance := getBalance previous name
  let vp := variancePercentage current_balance previous_balance
  if vp ≠ 0 then
    some { account_name := name
           current_balance := current_balance
           previous_balance := previous_balance
           variance_amount := current_balance - previous_balance
           variance_percentage := vp
           exceeds_threshold := decide (vp ≥ threshold) }
  else none

/-- Model of `variance_results`: the records accumulated over the name union. -/
def varianceResults (current previous : Snapshot) (threshold : ℚ) :
    List VarianceRecord :=
  (unionNames current previous).filterMap
    (varianceRecordFor threshold current previous)

/-- Model of `get_variance_analysis`, taken from the two balance snapshots onward
(the two selects that build the snapshots are the external data source). -/
def get_variance_analysis (current previous : Snapshot) (threshold : ℚ) :
    VarianceReport :=
  let variance_results := varianceResults current previous threshold
  let significant_variances :=
    variance_results.filter (fun v => v.exceeds_threshold)
  { total_accounts := (unionNames current previous).length
    variance_count := significant_variances.length
    threshold_used := threshold
    variances_exceeding_threshold := significant_variances }

/-- The percentage convention exactly as the specification words it:
`round(abs((cur - prev) / prev) * 100, 2)` when `prev != 0`, else 100.0 when
`cur != 0`, else 0.0. -/
def specVariancePercentage (cur prev : ℚ) : ℚ :=
  if prev ≠ 0 then round2 (|(cur - prev) / prev| * 100)
  else if cur ≠ 0 then 100
  else 0

/-! ### Helper lemmas -/

lemma pyRoundInt_nonneg {x : ℚ} (hx : 0 ≤ x) : 0 ≤ pyRoundInt x := by
  have hf : (0 : ℤ) ≤ ⌊x⌋ := Int.floor_nonneg.mpr hx
  unfold pyRoundInt
  split
  · exact hf
  · split
    · omega
    · split
      · exact hf
      · omega

lemma round2_nonneg {x : ℚ} (hx : 0 ≤ x) : 0 ≤ round2 x := by
  unfold round2
  have h : 0 ≤ pyRoundInt (x * 100) := pyRoundInt_nonneg (by positivity)
  positivity

lemma variancePercentage_nonneg (cur prev : ℚ) :
    0 ≤ variancePercentage cur prev := by
  unfold variancePercentage
  split
  · exact round2_nonneg (by positivity)
  · split
    · norm_num
    · exact le_refl 0

/-- The record emitted for a single account name, written out. -/
def recordOf (threshold : ℚ) (current previous : Snapshot) (name : String) :
    VarianceRecord :=
  { account_name := name
    current_balance := getBalance current name
    previous_balance := getBalance previous name
    variance_amount := getBalance current name - getBalance previous name
    variance_percentage :=
      variancePercentage (getBalance current name) (getBalance previous name)
    exceeds_threshold :=
      decide (variancePercentage (getBalance current name)
        (getBalance previous name) ≥ threshold) }

lemma varianceRecordFor_eq_some {threshold : ℚ} {current previous : Snapshot}
    {name : String} {r : VarianceRecord} :
    varianceRecordFor threshold current previous name = some r ↔
      variancePercentage (getBalance current name) (getBalance previous name) ≠ 0
      ∧ r = recordOf threshold current previous name := by
  simp only [varianceRecordFor, recordOf]
  split
  · rename_i hvp
    simp only [Option.some.injEq]
    exact ⟨fun h => ⟨hvp, h.symm⟩, fun h => h.2.symm⟩
  · rename_i hvp
    simp only [not_not] at hvp
    simp [hvp]

lemma recordOf_account_name (threshold : ℚ) (current previous : Snapshot)
    (name : String) :
    (recordOf threshold current previous name).account_name = name := rfl

lemma mem_varianceResults {current previous : Snapshot} {threshold : ℚ}
    {r : VarianceRecord} :
    r ∈ varianceResults current previous threshold ↔
      ∃ name ∈ unionNames current previous,
        variancePercentage (getBalance current name)
          (getBalance previous name) ≠ 0
        ∧ r = recordOf threshold current previous name := by
  unfold varianceResults
  rw [List.mem_filterMap]
  constructor
  · rintro ⟨a, ha, hsome⟩
    rw [varianceRecordFor_eq_some] at hsome
    exact ⟨a, ha, hsome.1, hsome.2⟩
  · rintro ⟨a, ha, hvp, hr⟩
    exact ⟨a, ha, varianceRecordFor_eq_some.mpr ⟨hvp, hr⟩⟩

/-! ### Claim theorems -/

/-- C1: for every account name, with `cur` and `prev` its balances in the two
snapshots (0 when absent), the computed variance percentage equals
`round(abs((cur - prev) / prev) * 100, 2)` when `prev ≠ 0`, equals 100.0 when
`prev = 0` and `cur ≠ 0`, and equals 0.0 when `prev = 0` and `cur = 0`; every
record produced by the variance loop carries exactly that percentage. -/
theorem variancePercentage_matches_spec (current previous : Snapshot)
    (threshold : ℚ) (name : String) :
    variancePercentage (getBalance current name) (getBalance previous name)
      = specVariancePercentage (getBalance current name)
          (getBalance previous name)
    ∧ ∀ r ∈ varianceResults current previous threshold,
        r.variance_percentage
          = variancePercentage r.current_balance r.previous_balance := by
  constructor
  · rfl
  · intro r hr
    obtain ⟨a, _, _, hrec⟩ := mem_varianceResults.mp hr
    subst hrec
    rfl

/-- C2: `total_accounts` is the cardinality of the union of the two
snapshots' account-name sets, `variances_exceeding_threshold` is exactly the
emitted records whose `exceeds_threshold` flag is true, and `variance_count`
is the length of that filtered list. -/
theorem variance_report_aggregates (current previous : Snapshot)
    (threshold : ℚ) :
    (get_variance_analysis current previous threshold).total_accounts
      = ((current.map Prod.fst).toFinset ∪ (previous.map Prod.fst).toFinset).card
    ∧ (get_variance_analysis current previous threshold).variances_exceeding_threshold
      = (varianceResults current previous threshold).filter
          (fun v => v.exceeds_threshold)
    ∧ (get_variance_analysis current previous threshold).variance_count
      = ((varianceResults current previous threshold).filter
          (fun v => v.exceeds_threshold)).length := by
  refine ⟨?_, rfl, rfl⟩
  show (unionNames current previous).length = _
  rw [← List.toFinset_append, List.card_toFinset]
  rfl

/-- C8: the variance percentage is asymmetric under swapping current and
previous: 110 against 100 gives 10.00, 100 against 110 gives 9.09, and the
two are not equal. -/
theorem variance_percentage_asymmetry :
    variancePercentage 110 100 = 10
    ∧ variancePercentage 100 110 = 9.09
    ∧ variancePercentage 110 100 ≠ variancePercentage 100 110 := by
  have h1 : variancePercentage 110 100 = 10 := by
    norm_num [variancePercentage, round2, pyRoundInt, abs_of_nonneg]
  have h2 : variancePercentage 100 110 = 9.09 := by
    norm_num [variancePercentage, round2, pyRoundInt, abs_of_nonneg]
  refine ⟨h1, h2, ?_⟩
  rw [h1, h2]
  norm_num

/-- C3: an account name of the union produces a record if and only if its
variance percentage is nonzero; an emitted record is flagged
`exceeds_threshold` iff its percentage is at least the threshold, and its
`variance_amount` is current balance minus previous balance. -/
theorem variance_record_emission (current previous : Snapshot)
    (threshold : ℚ) (name : String)
    (h : name ∈ unionNames current previous) :
    ((∃ r ∈ varianceResults current previous threshold,
        r.account_name = name)
      ↔ variancePercentage (getBalance current name)
          (getBalance previous name) ≠ 0)
    ∧ ∀ r ∈ varianceResults current previous threshold,
        r.account_name = name →
          (r.exceeds_threshold = true ↔ r.variance_percentage ≥ threshold)
          ∧ r.current_balance = getBalance current name
          ∧ r.previous_balance = getBalance previous name
          ∧ r.variance_amount = r.current_balance - r.previous_balance := by
  constructor
  · constructor
    · rintro ⟨r, hr, hname⟩
      obtain ⟨a, _, hvp, hrec⟩ := mem_varianceResults.mp hr
      subst hrec
      rw [recordOf_account_name] at hname
      subst hname
      exact hvp
    · intro hvp
      refine ⟨recordOf threshold current previous name, ?_, rfl⟩
      exact mem_varianceResults.mpr ⟨name, h, hvp, rfl⟩
  · intro r hr hname
    obtain ⟨a, _, hvp, hrec⟩ := mem_varianceResults.mp hr
    subst hrec
    rw [recordOf_account_name] at hname
    subst hname
    exact ⟨⟨fun hh => of_decide_eq_true hh, fun hh => decide_eq_true hh⟩,
      rfl, rfl, rfl⟩

/-- C9: the report's `variance_count` lies between 0 and `total_accounts`,
and every record of `variances_exceeding_threshold` is flagged, has its
percentage at least the threshold, and has a nonzero percentage. -/
theorem variance_report_invariants (current previous : Snapshot)
    (threshold : ℚ) :
    0 ≤ (get_variance_analysis current previous threshold).variance_count
    ∧ (get_variance_analysis current previous threshold).variance_count
        ≤ (get_variance_analysis current previous threshold).total_accounts
    ∧ ∀ r ∈ (get_variance_analysis current previous
          threshold).variances_exceeding_threshold,
        r.exceeds_threshold = true
        ∧ r.variance_percentage ≥ threshold
        ∧ r.variance_percentage ≠ 0 := by
  refine ⟨Nat.zero_le _, ?_, ?_⟩
  · show (List.filter _ (varianceResults current previous threshold)).length
      ≤ (unionNames current previous).length
    calc (List.filter _ (varianceResults current previous threshold)).length
        ≤ (varianceResults current previous threshold).length :=
          List.length_filter_le _ _
      _ ≤ (unionNames current previous).length :=
          List.length_filterMap_le _ _
  · intro r hr
    have hr' : r ∈ List.filter (fun v => v.exceeds_threshold)
        (varianceResults current previous threshold) := hr
    rw [List.mem_filter] at hr'
    obtain ⟨hmem, hflag⟩ := hr'
    obtain ⟨a, _, hvp, hrec⟩ := mem_varianceResults.mp hmem
    subst hrec
    exact ⟨hflag, of_decide_eq_true hflag, hvp⟩

/-- C10: with a nonpositive threshold every emitted record is flagged, the
report's `variances_exceeding_threshold` is the whole emitted list, and it
contains exactly the account names of the union whose variance percentage is
nonzero. -/
theorem nonpositive_threshold_flags_all (current previous : Snapshot)
    (threshold : ℚ) (h : threshold ≤ 0) :
    (∀ r ∈ varianceResults current previous threshold,
        r.exceeds_threshold = true)
    ∧ (get_variance_analysis current previous
          threshold).variances_exceeding_threshold
        = varianceResults current previous threshold
    ∧ ∀ name : String,
        (∃ r ∈ (get_variance_analysis current previous
            threshold).variances_exceeding_threshold,
          r.account_name = name)
        ↔ (name ∈ unionNames current previous
            ∧ variancePercentage (getBalance current name)
                (getBalance previous name) ≠ 0) := by
  have hall : ∀ r ∈ varianceResults current previous threshold,
      r.exceeds_threshold = true := by
    intro r hr
    obtain ⟨a, _, hvp, hrec⟩ := mem_varianceResults.mp hr
    subst hrec
    have hpos : 0 < variancePercentage (getBalance current a)
        (getBalance previous a) :=
      lt_of_le_of_ne (variancePercentage_nonneg _ _) (Ne.symm hvp)
    exact decide_eq_true (le_of_lt (lt_of_le_of_lt h hpos))
  have hfil : (get_variance_analysis current previous
      threshold).variances_exceeding_threshold
      = varianceResults current previous threshold := by
    show List.filter _ _ = _
    exact List.filter_eq_self.mpr hall
  refine ⟨hall, hfil, ?_⟩
  intro name
  rw [hfil]
  constructor
  · rintro ⟨r, hr, hname⟩
    obtain ⟨a, ha, hvp, hrec⟩ := mem_varianceResults.mp hr
    subst hrec
    rw [recordOf_account_name] at hname
    subst hname
    exact ⟨ha, hvp⟩
  · rintro ⟨hmem, hvp⟩
    refine ⟨recordOf threshold current previous name, ?_, rfl⟩
    exact mem_varianceResults.mpr ⟨name, hmem, hvp, rfl⟩

/-! ### The spec's end-to-end variance example -/

/-- Example current snapshot: `{A: 100, B: 200}`. -/
def curEx : Snapshot := [("A", 100), ("B", 200)]

/-- Example previous snapshot: `{A: 100, B: 150, C: 80}`. -/
def prevEx : Snapshot := [("A", 100), ("B", 150), ("C", 80)]

lemma unionEx : unionNames curEx prevEx = ["A", "B", "C"] := by
  simp [unionNames, curEx, prevEx, List.dedup_cons_of_mem,
    List.dedup_cons_of_not_mem]

lemma recAEx : varianceRecordFor 5 curEx prevEx "A" = none := by
  have h1 : getBalance curEx "A" = 100 := rfl
  have h2 : getBalance prevEx "A" = 100 := rfl
  have h3 : variancePercentage 100 100 = 0 := by
    norm_num [variancePercentage, round2, pyRoundInt, abs_of_nonneg]
  simp only [varianceRecordFor, h1, h2, h3]
  norm_num

lemma recBEx : varianceRecordFor 5 curEx prevEx "B" =
    some { account_name := "B", current_balance := 200,
           previous_balance := 150, variance_amount := 50,
           variance_percentage := 33.33, exceeds_threshold := true } := by
  have h1 : getBalance curEx "B" = 200 := rfl
  have h2 : getBalance prevEx "B" = 150 := rfl
  have h3 : variancePercentage 200 150 = 33.33 := by
    norm_num [variancePercentage, round2, pyRoundInt, abs_of_nonneg]
  have h4 : decide ((33.33 : ℚ) ≥ 5) = true := by
    rw [decide_eq_true_eq]
    norm_num
  simp only [varianceRecordFor, h1, h2, h3, h4]
  norm_num

lemma recCEx : varianceRecordFor 5 curEx prevEx "C" =
    some { account_name := "C", current_balance := 0,
           previous_balance := 80, variance_amount := -80,
           variance_percentage := 100, exceeds_threshold := true } := by
  have h1 : getBalance curEx "C" = 0 := rfl
  have h2 : getBalance prevEx "C" = 80 := rfl
  have h3 : variancePercentage 0 80 = 100 := by
    norm_num [variancePercentage, round2, pyRoundInt, abs_of_nonpos]
  have h4 : decide ((100 : ℚ) ≥ 5) = true := by
    rw [decide_eq_true_eq]
    norm_num
  simp only [varianceRecordFor, h1, h2, h3, h4]
  norm_num

lemma resultsEx : varianceResults curEx prevEx 5 =
    [{ account_name := "B", current_balance := 200,
       previous_balance := 150, variance_amount := 50,
       variance_percentage := 33.33, exceeds_threshold := true },
     { account_name := "C", current_balance := 0,
       previous_balance := 80, variance_amount := -80,
       variance_percentage := 100, exceeds_threshold := true }] := by
  unfold varianceResults
  rw [unionEx]
  simp only [List.filterMap_cons, recAEx, recBEx, recCEx,
    List.filterMap_nil]

/-- C4: on current = `{A:100, B:200}` and previous = `{A:100, B:150, C:80}`
with threshold 5.0, the report has `total_accounts = 3`,
`variance_count = 2`; A is omitted; B carries percentage 33.33 and amount
50; C carries percentage 100.0 and amount -80; both B and C appear in
`variances_exceeding_threshold`. -/
theorem variance_example_end_to_end :
    get_variance_analysis curEx prevEx 5 =
      { total_accounts := 3
        variance_count := 2
        threshold_used := 5
        variances_exceeding_threshold :=
          [{ account_name := "B", current_balance := 200,
             previous_balance := 150, variance_amount := 50,
             variance_percentage := 33.33, exceeds_threshold := true },
           { account_name := "C", current_balance := 0,
             previous_balance := 80, variance_amount := -80,
             variance_percentage := 100, exceeds_threshold := true }] } := by
  unfold get_variance_analysis
  rw [resultsEx, unionEx]
  simp [List.filter]

/-- C5: whenever `check_total_match` succeeds, `is_balanced` holds iff the
absolute difference of the two totals is strictly below 0.01. -/
theorem is_balanced_tolerance (db : Database) (table_name : String)
    (r : ReconciliationResult)
    (h : check_total_match db table_name = .ok r) :
    r.is_balanced = true ↔ |r.debit_total - r.credit_total| < 0.01 := by
  unfold check_total_match at h
  cases hm : get_model_by_name db table_name with
  | error e => rw [hm] at h; exact absurd h (by simp [Except.map])
  | ok rows =>
    rw [hm] at h
    simp only [Except.map, Except.ok.injEq] at h
    subst h
    simp only
    rw [decide_eq_true_eq]

/-- C6 (counterexample): with both the table name and the column invalid,
`get_total` raises the invalid-column error, not the unknown-table error, so
"an unknown-period error for every table name outside the set" fails at
table `bogus`, column `foo`. -/
theorem get_total_both_invalid :
    get_total { current_year := [], previous_year := [] } "bogus" "foo"
      = .error (.invalidColumn "foo")
    ∧ get_total { current_year := [], previous_year := [] } "bogus" "foo"
      ≠ .error (.unknownTable "bogus") := by
  constructor
  · simp [get_total]
  · simp [get_total]

/-- C6 (amended): `get_total` fails with the invalid-column error for every
column outside {debit, credit, balance}; for a valid column and a table name
outside {current_year, previous_year} it fails with the unknown-table
error; in both cases the result is the same for every store content, so no
read occurs. -/
theorem get_total_validation (db : Database) (table_name column : String) :
    (column ∉ (["debit", "credit", "balance"] : List String) →
        get_total db table_name column = .error (.invalidColumn column))
    ∧ (column ∈ (["debit", "credit", "balance"] : List String) →
        table_name ∉ (["current_year", "previous_year"] : List String) →
        get_total db table_name column = .error (.unknownTable table_name)) := by
  constructor
  · intro hc
    unfold get_total
    rw [if_neg hc]
  · intro hc ht
    simp only [List.mem_cons, List.not_mem_nil, or_false] at ht
    push_neg at ht
    unfold get_total get_model_by_name
    rw [if_pos hc, if_neg ht.1, if_neg ht.2]
    rfl

/-- C7: whenever the `total` tool returns a response for a valid period and
a valid column, the `total` field is nonnegative (enforced by the response
schema's `ge=0` constraint). -/
theorem totalTool_total_nonneg (db : Database) (table_name column : String)
    (r : TotalResponse)
    (ht : table_name ∈ (["current_year", "previous_year"] : List String))
    (hc : column ∈ (["debit", "credit", "balance"] : List String))
    (h : totalTool db table_name column = .ok r) :
    0 ≤ r.total := by
  unfold totalTool at h
  cases hg : get_total db table_name column with
  | error e => rw [hg] at h; exact absurd h (by simp)
  | ok v =>
    rw [hg] at h
    simp only [mkTotalResponse] at h
    split at h
    · rename_i hv
      cases h
      exact hv
    · exact absurd h (by simp)

/-! ### Witnesses -/

/-- Concrete store used by the reconciliation witness: one current-year row
with debit 100.01 and credit 100 (difference exactly at the tolerance). -/
def dbEx : Database :=
  { current_year :=
      [{ gl_account := "1000", account_name := "Cash", debit := 100.01,
         credit := 100, balance := -7 }]
    previous_year := [] }

theorem variancePercentage_matches_spec_witness :
    ({ account_name := "B", current_balance := 200, previous_balance := 150,
       variance_amount := 50, variance_percentage := 33.33,
       exceeds_threshold := true } : VarianceRecord).variance_percentage
      = variancePercentage 200 150 :=
  (variancePercentage_matches_spec curEx prevEx 5 "B").2 _
    (by rw [resultsEx]; exact List.mem_cons_self _ _)

theorem variance_record_emission_witness :
    (({ account_name := "B", current_balance := 200, previous_balance := 150,
        variance_amount := 50, variance_percentage := 33.33,
        exceeds_threshold := true } : VarianceRecord).exceeds_threshold = true
      ↔ ({ account_name := "B", current_balance := 200,
           previous_balance := 150, variance_amount := 50,
           variance_percentage := 33.33,
           exceeds_threshold := true } : VarianceRecord).variance_percentage
          ≥ 5)
    ∧ ({ account_name := "B", current_balance := 200, previous_balance := 150,
         variance_amount := 50, variance_percentage := 33.33,
         exceeds_threshold := true } : VarianceRecord).current_balance
        = getBalance curEx "B"
    ∧ ({ account_name := "B", current_balance := 200, previous_balance := 150,
         variance_amount := 50, variance_percentage := 33.33,
         exceeds_threshold := true } : VarianceRecord).previous_balance
        = getBalance prevEx "B"
    ∧ ({ account_name := "B", current_balance := 200, previous_balance := 150,
         variance_amount := 50, variance_percentage := 33.33,
         exceeds_threshold := true } : VarianceRecord).variance_amount
        = ({ account_name := "B", current_balance := 200,
             previous_balance := 150, variance_amount := 50,
             variance_percentage := 33.33,
             exceeds_threshold := true } : VarianceRecord).current_balance
          - ({ account_name := "B", current_balance := 200,
               previous_balance := 150, variance_amount := 50,
               variance_percentage := 33.33,
               exceeds_threshold := true } : VarianceRecord).previous_balance :=
  (variance_record_emission curEx prevEx 5 "B"
      (by rw [unionEx]; simp)).2 _
    (by rw [resultsEx]; exact List.mem_cons_self _ _) rfl

theorem is_balanced_tolerance_witness :
    ((⟨100.01, 100, false⟩ : ReconciliationResult).is_balanced = true
      ↔ |(⟨100.01, 100, false⟩ : ReconciliationResult).debit_total
          - (⟨100.01, 100, false⟩ : ReconciliationResult).credit_total|
            < 0.01) :=
  is_balanced_tolerance dbEx "current_year" _ (by
    simp only [check_total_match, get_model_by_name, dbEx, Except.map,
      List.map_cons, List.map_nil, List.sum_cons, List.sum_nil]
    norm_num [abs_of_nonneg])

theorem get_total_validation_witness :
    get_total { current_year := [], previous_year := [] }
        "current_year" "foo"
      = .error (.invalidColumn "foo")
    ∧ get_total { current_year := [], previous_year := [] } "bogus" "debit"
      = .error (.unknownTable "bogus") :=
  ⟨(get_total_validation { current_year := [], previous_year := [] }
      "current_year" "foo").1 (by simp),
   (get_total_validation { current_year := [], previous_year := [] }
      "bogus" "debit").2 (by simp) (by simp)⟩

theorem totalTool_total_nonneg_witness :
    0 ≤ ({ table_name := "current_year", column := "debit",
           total := 100.01 } : TotalResponse).total :=
  totalTool_total_nonneg dbEx "current_year" "debit" _
    (by simp) (by simp) (by
      simp only [totalTool, get_total, get_model_by_name, dbEx, Except.map,
        mkTotalResponse, List.map_cons, List.map_nil,
        List.sum_cons, List.sum_nil]
      norm_num [columnValue])

theorem variance_report_invariants_witness :
    ({ account_name := "B", current_balance := 200, previous_balance := 150,
       variance_amount := 50, variance_percentage := 33.33,
       exceeds_threshold := true } : VarianceRecord).exceeds_threshold = true
    ∧ ({ account_name := "B", current_balance := 200, previous_balance := 150,
         variance_amount := 50, variance_percentage := 33.33,
         exceeds_threshold := true } : VarianceRecord).variance_percentage ≥ 5
    ∧ ({ account_name := "B", current_balance := 200, previous_balance := 150,
         variance_amount := 50, variance_percentage := 33.33,
         exceeds_threshold := true } : VarianceRecord).variance_percentage
        ≠ 0 :=
  (variance_report_invariants curEx prevEx 5).2.2 _ (by
    show _ ∈ List.filter _ (varianceResults curEx prevEx 5)
    rw [resultsEx]
    simp [List.filter])

theorem nonpositive_threshold_flags_all_witness :
    (get_variance_analysis curEx prevEx 0).variances_exceeding_threshold
      = varianceResults curEx prevEx 0 :=
  (nonpositive_threshold_flags_all curEx prevEx 0 (le_refl 0)).2.1
